import Mathlib

/-!
Shallow embedding of the request-dispatch pipeline of aiohypixel-py:
the `RateLimiter` of `aiohypixel/ratelimiter.py` and the methods
`HTTPClient.response_as` and `HTTPClient.request` of `aiohypixel/http.py`,
together with the status-to-error table `HTTPClient.ERRORS` and the typed
exceptions of `aiohypixel/errors.py`.

The event loop's scheduling is made explicit: `RateLimiter.release`
records the clear of the event flag and appends the deadline of the
`loop.call_later(after, self.lock.set)` callback; a deadline that lies at
or after the most recent clear will set the flag when it fires, so the
gate is open at time `u` exactly when some recorded deadline `d` with
`lastClear ≤ d ≤ u` exists.  The retry loop of `HTTPClient.request` is
embedded as a fuel-indexed recursion where the fuel is the number of
iterations `range(self.retry_attempts)` still has to run, so that
`fuel = retry_attempts.toNat - attempt` throughout.
-/

/-- Accumulate the value of a run of decimal digits; `none` on the
first non-digit character. -/
def digitsVal? : List Char → Nat → Option Nat
  | [], acc => some acc
  | c :: cs, acc =>
    if c.isDigit then digitsVal? cs (acc * 10 + (c.toNat - 48)) else none

/-- Value of a nonempty all-digit character list, `none` otherwise. -/
def natDigits? : List Char → Option Nat
  | [] => none
  | l => digitsVal? l 0

/-- Result of Python `int(s)` on a header string: `some n` on success,
`none` when the string is not an integer literal (Python raises
ValueError there).  Decimal digits with an optional leading minus sign,
which covers every header value this client can meet. -/
def pyInt? (s : String) : Option Int :=
  match s.data with
  | '-' :: ds => (natDigits? ds).map fun n => -(n : Int)
  | ds => (natDigits? ds).map fun n => (n : Int)

/-- Transport response as consumed by `HTTPClient.request`: the HTTP
status, the three headers the method reads (`none` = header absent), and
the body in the shapes `read()` / `text()` / `json()` yield
(`bodyJson = none` models a body whose `json()` raises
JSONDecodeError). -/
structure Resp where
  status : Int
  ratelimitRemaining : Option String
  ratelimitReset : Option String
  retryAfter : Option String
  body : String
  bodyJson : Option String
deriving DecidableEq, Repr

/-- Error kinds of the library's typed exceptions (`aiohypixel/errors.py`). -/
inductive ErrKind where
  | dataMissing
  | forbidden
  | dataInvalid
  | tooManyRequests
  | hypixelServerError
  | genericHTTP
deriving DecidableEq, Repr

/-- Python exceptions the pipeline can raise.  A typed library error
(`httpError`) records the error kind and the response object passed to
the exception constructor (`none` when the constructor got no
argument). -/
inductive PyErr where
  | valueError
  | typeError
  | jsonDecodeError
  | httpError (kind : ErrKind) (resp : Option Resp)
deriving DecidableEq, Repr

/-- Lookup `self.ERRORS.get(status, self.ERRORS["_"])` over the table
`{400: DataMissing, 403: Forbidden, 422: DataInvalid,
429: TooManyRequests}` with default `HTTPException`. -/
def ERRORSget (status : Int) : ErrKind :=
  if status = 400 then .dataMissing
  else if status = 403 then .forbidden
  else if status = 422 then .dataInvalid
  else if status = 429 then .tooManyRequests
  else .genericHTTP

/-- Values `HTTPClient.response_as` can return: bytes of `read()`, the
decoded `text()`, the parsed `json()`, or the raw response handle. -/
inductive FmtVal where
  | raw (b : String)
  | text (t : String)
  | json (j : String)
  | handle (r : Resp)
deriving DecidableEq, Repr

/-- Embedding of `HTTPClient.response_as(response, response_format)`.
The format argument is `Optional[ResponseFormat]`, so it is an
`Option String` here; any value other than the five literals falls
through every equality test and hits the `raise ValueError` arm.  In the
`"auto"` arm the JSONDecodeError of `json()` is caught and `text()` is
returned instead; in the strict `"json"` arm it propagates. -/
def response_as (resp : Resp) (fmt : Option String) : Except PyErr FmtVal :=
  if fmt = some "raw" then .ok (.raw resp.body)
  else if fmt = some "text" then .ok (.text resp.body)
  else if fmt = some "json" then
    match resp.bodyJson with
    | some j => .ok (.json j)
    | none => .error .jsonDecodeError
  else if fmt = some "auto" then
    match resp.bodyJson with
    | some j => .ok (.json j)
    | none => .ok (.text resp.body)
  else if fmt = some "response" then .ok (.handle resp)
  else .error .valueError

/-- Embedding of `int(headers.get("ratelimit-remaining", 0))`: an absent
header gives the integer default `0`; a present but unparsable value
raises ValueError. -/
def remainingOf (resp : Resp) : Except PyErr Int :=
  match resp.ratelimitRemaining with
  | none => .ok 0
  | some s =>
    match pyInt? s with
    | some n => .ok n
    | none => .error .valueError

/-- Embedding of
`int(headers.get("ratelimit-reset", headers.get("retry-after")))`:
the reset header if present, else the retry-after header; when both are
absent the inner `get` yields `None` and `int(None)` raises TypeError;
a present but unparsable value raises ValueError. -/
def resetAfterOf (resp : Resp) : Except PyErr Int :=
  match resp.ratelimitReset.orElse (fun _ => resp.retryAfter) with
  | none => .error .typeError
  | some s =>
    match pyInt? s with
    | some n => .ok n
    | none => .error .valueError

/-- Outcome of one `HTTPClient.request` call: the Python `return` value
or the exception that propagates. -/
inductive Outcome where
  | returned (v : FmtVal)
  | raised (e : PyErr)
deriving DecidableEq, Repr

/-- What one iteration of the `for attempt in range(self.retry_attempts)`
loop does: `done rels out` when the iteration returns or raises after
making the releases `rels` (in order, each with its delay argument);
`next rels` when control reaches the bottom of the loop body after the
releases `rels`. -/
inductive IterStep where
  | done (rels : List Int) (out : Outcome)
  | next (rels : List Int)
deriving DecidableEq, Repr

/-- Embedding of one iteration of the retry loop of
`HTTPClient.request` (body of the `for attempt in range(...)` loop),
after the transport call has produced `resp`:
header parsing, the `rl_sleep_for` computation, the 2xx return, the 429
and ≥500 arms, the terminal raise of the other statuses, and the
last-attempt `release(rl_sleep_for); continue`. -/
def iterate (resp : Resp) (attempt : Nat) (retryAttempts : Int)
    (fmt : Option String) : IterStep :=
  match remainingOf resp with
  | .error e => .done [] (.raised e)
  | .ok remaining =>
    match resetAfterOf resp with
    | .error e => .done [] (.raised e)
    | .ok resetAfter =>
      let sleepFor : Int :=
        if remaining = 0 ∧ resp.status ≠ 429 then resetAfter else 0
      if 200 ≤ resp.status ∧ resp.status < 300 then
        match response_as resp fmt with
        | .ok v => .done [sleepFor] (.returned v)
        | .error e => .done [sleepFor] (.raised e)
      else if resp.status = 429 then
        match resp.retryAfter with
        | none => .done [] (.raised .typeError)
        | some s =>
          match pyInt? s with
          | none => .done [] (.raised .valueError)
          | some unlockAfter =>
            if (attempt : Int) = retryAttempts - 1 then
              .next [unlockAfter, sleepFor]
            else
              .next [unlockAfter]
      else if 500 ≤ resp.status then
        let sleepFor2 : Int := 1 + (attempt : Int) * 2
        if (attempt : Int) = retryAttempts - 1 then
          .next [sleepFor2]
        else
          .next []
      else
        .done [sleepFor]
          (.raised (.httpError (ERRORSget resp.status) (some resp)))

/-- Events of a `HTTPClient.request` run, in program order: waiting on
the gate, the transport call `session.get`, and each
`ratelimiter.release(after)` with its delay argument. -/
inductive Ev where
  | acquire
  | transport (r : Resp)
  | release (after : Int)
deriving DecidableEq, Repr

/-- Embedding of the code after the retry loop of `HTTPClient.request`:
the unconditional `self.ratelimiter.release()` (default delay 0), then
`if status >= 500: raise HypixelServerError()` — with `status` still
`None` the comparison raises TypeError, and `HypixelServerError()` is
constructed without the response — else
`raise self.ERRORS.get(status, self.ERRORS["_"])(response)`. -/
def postLoop (lastStatus : Option Int) (lastResp : Option Resp) :
    List Ev × Outcome :=
  ([.release 0],
    match lastStatus with
    | none => .raised .typeError
    | some s =>
      if 500 ≤ s then .raised (.httpError .hypixelServerError none)
      else .raised (.httpError (ERRORSget s) lastResp))

/-- Embedding of the retry loop of `HTTPClient.request`.  `net` gives the
response of the transport call of each attempt; `fuel` is the number of
iterations `range(retry_attempts)` still has to run (the caller passes
`retryAttempts.toNat` so that `fuel + attempt = retryAttempts.toNat`
throughout); `lastStatus` and `lastResp` are the `status` and `response`
variables as they stand when the loop exits. -/
def runAux (net : Nat → Resp) (retryAttempts : Int) (fmt : Option String) :
    Nat → Nat → Option Int → Option Resp → List Ev × Outcome
  | 0, _, lastStatus, lastResp => postLoop lastStatus lastResp
  | fuel + 1, attempt, _, _ =>
    let resp := net attempt
    match iterate resp attempt retryAttempts fmt with
    | .done rels out =>
      (.acquire :: .transport resp :: rels.map Ev.release, out)
    | .next rels =>
      let rest := runAux net retryAttempts fmt fuel (attempt + 1)
        (some resp.status) (some resp)
      (.acquire :: .transport resp :: (rels.map Ev.release ++ rest.1),
        rest.2)

/-- Embedding of `HTTPClient.request`: run the loop from attempt 0 with
`status = None` and `response = None`; `range(retry_attempts)` runs
`retry_attempts.toNat` iterations (zero when the argument is ≤ 0). -/
def request (net : Nat → Resp) (retryAttempts : Int)
    (fmt : Option String) : List Ev × Outcome :=
  runAux net retryAttempts fmt retryAttempts.toNat 0 none none

/-- Delay arguments of the release events of a trace, in order. -/
def releasesOf (evs : List Ev) : List Int :=
  evs.filterMap fun e =>
    match e with
    | .release a => some a
    | _ => none

/-- Number of transport calls (HTTP GETs) in a trace. -/
def transportCount (evs : List Ev) : Nat :=
  (evs.filter fun e =>
    match e with
    | .transport _ => true
    | _ => false).length

/-- Release delays made by one loop iteration (before its return, raise
or fall-through to the next acquire). -/
def iterReleases (resp : Resp) (attempt : Nat) (retryAttempts : Int)
    (fmt : Option String) : List Int :=
  match iterate resp attempt retryAttempts fmt with
  | .done rels _ => rels
  | .next rels => rels

/-- State of the `RateLimiter` of `aiohypixel/ratelimiter.py` together
with the event-loop bookkeeping needed to interpret it over time:
`lastClear` is the time of the most recent `self.lock.clear()` (`none`
when `release` was never called, the `Event` starting set), and `timers`
holds the deadline of every `loop.call_later(after, self.lock.set)`
callback ever scheduled — the handle is discarded by the source, so no
deadline is ever cancelled. -/
structure RateLimiter where
  lastClear : Option Int
  timers : List Int
deriving DecidableEq, Repr

/-- The limiter as built by `RateLimiter.__init__`: `self.lock.set()`
leaves the event set and no timer scheduled. -/
def RateLimiter.fresh : RateLimiter :=
  ⟨none, []⟩

/-- Embedding of `RateLimiter.release(after)` called at time `now`:
`self.lock.clear()` then `self.loop.call_later(after, self.lock.set)`. -/
def RateLimiter.release (rl : RateLimiter) (now after : Int) : RateLimiter :=
  ⟨some now, rl.timers ++ [now + after]⟩

/-- Whether the gate (the `Event` flag) is open at time `u`: open when
never cleared, and otherwise exactly when some scheduled `set` callback
with deadline at or after the last clear has fired by time `u`. -/
def RateLimiter.openAt (rl : RateLimiter) (u : Int) : Bool :=
  match rl.lastClear with
  | none => true
  | some c => rl.timers.any fun d => decide (c ≤ d ∧ d ≤ u)

/-- Smallest element of a list of deadlines, `none` when empty. -/
def minDeadline? : List Int → Option Int
  | [] => none
  | x :: xs => some (xs.foldl min x)

/-- Time at which an `acquire` (`await self.lock.wait()`) started at time
`t` resumes: immediately when the gate is open, else at the earliest
scheduled `set` deadline at or after the last clear; `none` when no such
deadline exists (the wait never completes). -/
def RateLimiter.nextOpen? (rl : RateLimiter) (t : Int) : Option Int :=
  if rl.openAt t then some t
  else
    match rl.lastClear with
    | none => some t
    | some c => minDeadline? (rl.timers.filter fun d => decide (c ≤ d))

/-- One step of replaying a request trace against the timed limiter:
`acquire` advances the clock to the gate's next open time, `transport`
is instantaneous, `release a` performs `RateLimiter.release` at the
current time. -/
def replayStep (st : Int × RateLimiter) (e : Ev) :
    Option (Int × RateLimiter) :=
  match e with
  | .acquire => (st.2.nextOpen? st.1).map fun t2 => (t2, st.2)
  | .transport _ => some st
  | .release a => some (st.1, st.2.release st.1 a)

/-- Replay a trace from time 0 against a fresh limiter, yielding the
final clock and limiter state (`none` when an acquire never resumes). -/
def replay (evs : List Ev) : Option (Int × RateLimiter) :=
  evs.foldlM replayStep (0, RateLimiter.fresh)

/-- Server-error response: status 500, no remaining header (defaults
to 0), reset header 7. -/
def resp500 : Resp :=
  ⟨500, none, some "7", none, "E", none⟩

/-- Rate-limited response: status 429 with `retry-after: 10`. -/
def resp429 : Resp :=
  ⟨429, none, none, some "10", "E", none⟩

/-- Forbidden response: status 403 with parsable rate-limit headers. -/
def resp403 : Resp :=
  ⟨403, some "3", some "2", none, "E", none⟩

/-- Successful response with `ratelimit-remaining: 5` and
`ratelimit-reset: 30`, JSON body parsing to `J`. -/
def respOK5 (s : Int) : Resp :=
  ⟨s, some "5", some "30", none, "B", some "J"⟩

/-- Successful response with `ratelimit-remaining: 0` and
`ratelimit-reset: 30`, JSON body parsing to `J`. -/
def respOK0 (s : Int) : Resp :=
  ⟨s, some "0", some "30", none, "B", some "J"⟩

/-- Response whose `ratelimit-remaining` header is present but not an
integer literal. -/
def respBadRem : Resp :=
  ⟨200, some "abc", some "30", none, "B", some "J"⟩

/-- Response carrying neither `ratelimit-reset` nor `retry-after`. -/
def respNoReset : Resp :=
  ⟨200, some "5", none, none, "B", some "J"⟩

/-- Expected event trace of a run whose every iteration falls through to
the next attempt (429 or ≥500 statuses) against a constant transport
response: each remaining iteration contributes its acquire, its
transport call and its releases `r attempt`, and the post-loop code
contributes the final bare release. -/
def constNextEvents (resp : Resp) (r : Nat → List Int) :
    Nat → Nat → List Ev
  | 0, _ => [.release 0]
  | fuel + 1, attempt =>
    .acquire :: .transport resp ::
      ((r attempt).map Ev.release ++ constNextEvents resp r fuel (attempt + 1))

/-! Helper lemmas shared by the claim theorems. -/

theorem ERRORSget_ne_server (s : Int) :
    ERRORSget s ≠ ErrKind.hypixelServerError := by
  unfold ERRORSget
  split_ifs <;> simp

theorem response_as_no_httpError (resp : Resp) (fmt : Option String)
    (k : ErrKind) (ro : Option Resp) :
    response_as resp fmt ≠ .error (.httpError k ro) := by
  unfold response_as
  split_ifs <;> cases hb : resp.bodyJson <;> simp [hb]

theorem releasesOf_cons_acquire (rest : List Ev) :
    releasesOf (.acquire :: rest) = releasesOf rest := rfl

theorem releasesOf_cons_transport (r : Resp) (rest : List Ev) :
    releasesOf (.transport r :: rest) = releasesOf rest := rfl

theorem releasesOf_cons_release (a : Int) (rest : List Ev) :
    releasesOf (.release a :: rest) = a :: releasesOf rest := rfl

theorem transportCount_cons_acquire (rest : List Ev) :
    transportCount (.acquire :: rest) = transportCount rest := rfl

theorem transportCount_cons_transport (r : Resp) (rest : List Ev) :
    transportCount (.transport r :: rest) = transportCount rest + 1 := rfl

theorem transportCount_cons_release (a : Int) (rest : List Ev) :
    transportCount (.release a :: rest) = transportCount rest := rfl

theorem releasesOf_release_prefix (l : List Int) (rest : List Ev) :
    releasesOf (l.map Ev.release ++ rest) = l ++ releasesOf rest := by
  induction l with
  | nil => rfl
  | cons x xs ih =>
    simp only [List.map_cons, List.cons_append, releasesOf_cons_release, ih]

theorem transportCount_release_prefix (l : List Int) (rest : List Ev) :
    transportCount (l.map Ev.release ++ rest) = transportCount rest := by
  induction l with
  | nil => rfl
  | cons x xs ih =>
    simp only [List.map_cons, List.cons_append, transportCount_cons_release, ih]

theorem transportCount_constNextEvents (resp : Resp) (r : Nat → List Int) :
    ∀ fuel attempt, transportCount (constNextEvents resp r fuel attempt) = fuel := by
  intro fuel
  induction fuel with
  | zero => intro attempt; rfl
  | succ n ih =>
    intro attempt
    simp only [constNextEvents, transportCount_cons_acquire,
      transportCount_cons_transport, transportCount_release_prefix,
      ih (attempt + 1)]

theorem runAux_const_next (resp : Resp) (retry : Int) (fmt : Option String)
    (r : Nat → List Int)
    (h : ∀ a, iterate resp a retry fmt = .next (r a)) :
    ∀ fuel attempt ls lr,
      runAux (fun _ => resp) retry fmt fuel attempt ls lr =
        (constNextEvents resp r fuel attempt,
          (postLoop (if fuel = 0 then ls else some resp.status)
            (if fuel = 0 then lr else some resp)).2) := by
  intro fuel
  induction fuel with
  | zero =>
    intro attempt ls lr
    simp [runAux, constNextEvents, postLoop]
  | succ n ih =>
    intro attempt ls lr
    simp only [runAux, h attempt, constNextEvents, ih (attempt + 1)]
    cases n <;> simp

/-- C10: if `HTTPClient` is constructed with `retry_attempts ≤ 0`, then
`HTTPClient.request` performs no transport call, the loop never runs so
`status` stays `None`, and the post-loop comparison `status >= 500`
raises TypeError instead of a typed library error — after the
unconditional bare release. -/
theorem c10_nonpositive_retry_typeerror (net : Nat → Resp)
    (fmt : Option String) (retry : Int) (h : retry ≤ 0) :
    request net retry fmt = ([Ev.release 0], .raised .typeError) ∧
    transportCount (request net retry fmt).1 = 0 := by
  have hz : retry.toNat = 0 := by omega
  have he : request net retry fmt = ([Ev.release 0], .raised .typeError) := by
    simp [request, hz, runAux, postLoop]
  exact ⟨he, by rw [he]; rfl⟩

/-- Witness for C10 at `retry_attempts = 0` with a constant 403 network. -/
theorem c10_nonpositive_retry_typeerror_witness :
    request (fun _ => resp403) 0 (some "json") =
      ([Ev.release 0], .raised .typeError) ∧
    transportCount (request (fun _ => resp403) 0 (some "json")).1 = 0 :=
  c10_nonpositive_retry_typeerror (fun _ => resp403) (some "json") 0
    (by decide)

/-- C2 counterexample: on a fresh limiter, `release(0)` immediately
followed by `release(30)` leaves BOTH `call_later` timers scheduled (the
source discards the timer handle and cancels nothing), and the
zero-delay timer scheduled first reopens the gate at time 1, long before
the most recent delay 30 has elapsed — so the second call neither
replaces the previous reopen nor leaves at most one timer outstanding. -/
theorem c2_replace_reopen_cex :
    ((RateLimiter.fresh.release 0 0).release 0 30).timers = [0, 30] ∧
    ((RateLimiter.fresh.release 0 0).release 0 30).openAt 1 = true ∧
    ¬ ((30 : Int) ≤ 1) := by
  refine ⟨rfl, rfl, by decide⟩

/-- C2 amended: calling `release` while the gate is closed does not
cancel the previously scheduled reopen; both timers stay outstanding
(the timer list has both deadlines) and the gate is open exactly once
the EARLIER of the two deadlines has passed — the most recent delay wins
only when it is the smaller one. -/
theorem c2_timer_stacking_amended (d1 d2 : Int) (h1 : 0 ≤ d1)
    (h2 : 0 ≤ d2) (u : Int) :
    ((RateLimiter.fresh.release 0 d1).release 0 d2).timers.length = 2 ∧
    (((RateLimiter.fresh.release 0 d1).release 0 d2).openAt u = true ↔
      d1 ≤ u ∨ d2 ≤ u) := by
  constructor
  · rfl
  · simp [RateLimiter.release, RateLimiter.fresh, RateLimiter.openAt]
    omega

/-- Witness for the amended C2 at delays 0 and 30, observed at time 1. -/
theorem c2_timer_stacking_witness :
    ((RateLimiter.fresh.release 0 0).release 0 30).timers.length = 2 ∧
    (((RateLimiter.fresh.release 0 0).release 0 30).openAt 1 = true ↔
      (0 : Int) ≤ 1 ∨ (30 : Int) ≤ 1) :=
  c2_timer_stacking_amended 0 30 (by decide) (by decide) 1

/-- C1 counterexample: with `retry_attempts = 3`, a non-final iteration
that observes status 500 performs zero releases before the next acquire,
and the final iteration of an all-429 run performs two releases — the
gate-consuming iterations do not each perform exactly one release. -/
theorem c1_release_per_iteration_cex :
    iterReleases resp500 0 3 (some "json") = [] ∧
    iterReleases resp429 2 3 (some "json") = [10, 0] := by
  constructor <;> rfl

/-- C3 counterexample: a request with the unrecognized format `"bogus"`
against a network answering 200 performs one transport call and releases
the gate before `response_as` raises ValueError — the contract violation
is not raised before the network call. -/
theorem c3_format_check_cex :
    request (fun _ => respOK5 200) 3 (some "bogus") =
      ([.acquire, .transport (respOK5 200), .release 0],
        .raised .valueError) ∧
    transportCount (request (fun _ => respOK5 200) 3 (some "bogus")).1
      = 1 := by
  constructor <;> rfl

/-- C4 counterexample: with `retry_attempts = 3` and every attempt
answering 500, the delays actually passed to `release` are `[5, 0]` —
the back-off values 1 and 3 of the first two attempts are computed but
never given to any release, and the final bare release passes 0 — not
the claimed increasing sequence `[1, 3, 5]`. -/
theorem c4_backoff_cex :
    releasesOf (request (fun _ => resp500) 3 (some "json")).1 = [5, 0] ∧
    ([5, 0] : List Int) ≠ [1, 3, 5] := by
  constructor <;> decide

/-- C7 counterexample: a present but unparsable `ratelimit-remaining`
header does not default to 0; `int("abc")` raises ValueError and the
whole request fails with it after a single transport call. -/
theorem c7_header_default_cex :
    remainingOf respBadRem = .error .valueError ∧
    remainingOf respBadRem ≠ .ok 0 ∧
    (request (fun _ => respBadRem) 3 (some "json")).2 =
      .raised .valueError := by
  refine ⟨rfl, fun h => Except.noConfusion h, rfl⟩

/-- C9 counterexample: when the attempt budget is exhausted on 500
responses, the raised `HypixelServerError` is constructed with no
argument — it carries no response object, unlike every other typed
error raised by `request`. -/
theorem c9_server_error_response_cex :
    (request (fun _ => resp500) 1 (some "json")).2 =
      .raised (.httpError .hypixelServerError none) := by
  rfl

/-- C5: for every response with status in [200, 300), `request` releases
the gate and returns the parsed body; with `ratelimit-remaining: 5` the
single release has delay 0 (the replayed gate is open from time 0 on),
and with `ratelimit-remaining: 0`, `ratelimit-reset: 30` the single
release has delay 30, so the replayed gate is closed to every later
acquire until time 30. -/
theorem c5_success_gate_release (s : Int) (h1 : 200 ≤ s) (h2 : s < 300) :
    request (fun _ => respOK5 s) 3 (some "json") =
      ([.acquire, .transport (respOK5 s), .release 0],
        .returned (.json "J")) ∧
    request (fun _ => respOK0 s) 3 (some "json") =
      ([.acquire, .transport (respOK0 s), .release 30],
        .returned (.json "J")) ∧
    replay [.acquire, .transport (respOK5 s), .release 0] =
      some (0, ⟨some 0, [0]⟩) ∧
    (∀ u : Int, (⟨some 0, [0]⟩ : RateLimiter).openAt u = true ↔ 0 ≤ u) ∧
    replay [.acquire, .transport (respOK0 s), .release 30] =
      some (0, ⟨some 0, [30]⟩) ∧
    (∀ u : Int, (⟨some 0, [30]⟩ : RateLimiter).openAt u = true ↔ 30 ≤ u) := by
  have hA : iterate (respOK5 s) 0 3 (some "json") =
      .done [0] (.returned (.json "J")) := by
    unfold iterate
    rw [show remainingOf (respOK5 s) = Except.ok 5 from rfl,
        show resetAfterOf (respOK5 s) = Except.ok 30 from rfl]
    dsimp only
    rw [show (respOK5 s).status = s from rfl]
    rw [if_neg (by omega : ¬((5 : Int) = 0 ∧ s ≠ 429))]
    rw [if_pos (⟨h1, h2⟩ : 200 ≤ s ∧ s < 300)]
    rw [show response_as (respOK5 s) (some "json") = .ok (.json "J") from rfl]
  have hB : iterate (respOK0 s) 0 3 (some "json") =
      .done [30] (.returned (.json "J")) := by
    unfold iterate
    rw [show remainingOf (respOK0 s) = Except.ok 0 from rfl,
        show resetAfterOf (respOK0 s) = Except.ok 30 from rfl]
    dsimp only
    rw [show (respOK0 s).status = s from rfl]
    rw [if_pos (⟨rfl, by omega⟩ : (0 : Int) = 0 ∧ s ≠ 429)]
    rw [if_pos (⟨h1, h2⟩ : 200 ≤ s ∧ s < 300)]
    rw [show response_as (respOK0 s) (some "json") = .ok (.json "J") from rfl]
  refine ⟨?_, ?_, rfl, ?_, rfl, ?_⟩
  · simp [request, show (3 : Int).toNat = 3 from rfl, runAux, hA]
  · simp [request, show (3 : Int).toNat = 3 from rfl, runAux, hB]
  · intro u
    simp [RateLimiter.openAt]
    try omega
  · intro u
    simp [RateLimiter.openAt]
    try omega

/-- Witness for C5 at status 200. -/
theorem c5_success_gate_release_witness :
    request (fun _ => respOK5 200) 3 (some "json") =
      ([.acquire, .transport (respOK5 200), .release 0],
        .returned (.json "J")) ∧
    request (fun _ => respOK0 200) 3 (some "json") =
      ([.acquire, .transport (respOK0 200), .release 30],
        .returned (.json "J")) ∧
    replay [.acquire, .transport (respOK5 200), .release 0] =
      some (0, ⟨some 0, [0]⟩) ∧
    (∀ u : Int, (⟨some 0, [0]⟩ : RateLimiter).openAt u = true ↔ 0 ≤ u) ∧
    replay [.acquire, .transport (respOK0 200), .release 30] =
      some (0, ⟨some 0, [30]⟩) ∧
    (∀ u : Int, (⟨some 0, [30]⟩ : RateLimiter).openAt u = true ↔ 30 ≤ u) :=
  c5_success_gate_release 200 (by decide) (by decide)

/-- C3 amended: an unrecognized `response_format` raises ValueError, but
only while formatting a successful (2xx) response — after exactly one
transport call and after the gate release, never before the network
call; on non-2xx paths the format is never inspected at all. -/
theorem c3_format_check_after_network (fmt : Option String) (retry s : Int)
    (hraw : fmt ≠ some "raw") (htxt : fmt ≠ some "text")
    (hjsn : fmt ≠ some "json") (haut : fmt ≠ some "auto")
    (hrsp : fmt ≠ some "response") (hretry : 1 ≤ retry)
    (h1 : 200 ≤ s) (h2 : s < 300) :
    request (fun _ => respOK5 s) retry fmt =
      ([.acquire, .transport (respOK5 s), .release 0],
        .raised .valueError) ∧
    transportCount (request (fun _ => respOK5 s) retry fmt).1 = 1 := by
  have hfm : response_as (respOK5 s) fmt = .error .valueError := by
    unfold response_as
    rw [if_neg hraw, if_neg htxt, if_neg hjsn, if_neg haut, if_neg hrsp]
  have hiter : iterate (respOK5 s) 0 retry fmt =
      .done [0] (.raised .valueError) := by
    unfold iterate
    rw [show remainingOf (respOK5 s) = Except.ok 5 from rfl,
        show resetAfterOf (respOK5 s) = Except.ok 30 from rfl]
    dsimp only
    rw [show (respOK5 s).status = s from rfl]
    rw [if_neg (by omega : ¬((5 : Int) = 0 ∧ s ≠ 429))]
    rw [if_pos (⟨h1, h2⟩ : 200 ≤ s ∧ s < 300)]
    rw [hfm]
  obtain ⟨m, hm⟩ : ∃ m, retry.toNat = m + 1 := ⟨retry.toNat - 1, by omega⟩
  have he : request (fun _ => respOK5 s) retry fmt =
      ([.acquire, .transport (respOK5 s), .release 0],
        .raised .valueError) := by
    simp [request, hm, runAux, hiter]
  exact ⟨he, by rw [he]; rfl⟩

/-- Witness for the amended C3 at format `"bogus"`, budget 3, status 200. -/
theorem c3_format_check_after_network_witness :
    request (fun _ => respOK5 200) 3 (some "bogus") =
      ([.acquire, .transport (respOK5 200), .release 0],
        .raised .valueError) ∧
    transportCount (request (fun _ => respOK5 200) 3 (some "bogus")).1 = 1 :=
  c3_format_check_after_network (some "bogus") 3 200 (by decide) (by decide)
    (by decide) (by decide) (by decide) (by decide) (by decide) (by decide)

/-- C6: a 4xx status other than 429 ends the iteration with exactly one
gate release followed immediately by the typed error of the
status-to-error table applied to the response (no retry); the table maps
400 to DataMissing, 403 to Forbidden, 422 to DataInvalid and every
unmapped code to the generic HTTPException; in particular a constant-403
network makes the whole request raise Forbidden with exactly one
transport call. -/
theorem c6_terminal_4xx_mapping :
    (∀ (resp : Resp) (attempt : Nat) (retry : Int) (fmt : Option String)
        (rem ra : Int), 400 ≤ resp.status → resp.status < 500 →
      resp.status ≠ 429 → remainingOf resp = .ok rem →
      resetAfterOf resp = .ok ra →
      iterate resp attempt retry fmt =
        .done [if rem = 0 then ra else 0]
          (.raised (.httpError (ERRORSget resp.status) (some resp)))) ∧
    ERRORSget 400 = .dataMissing ∧
    ERRORSget 403 = .forbidden ∧
    ERRORSget 422 = .dataInvalid ∧
    ERRORSget 429 = .tooManyRequests ∧
    (∀ st : Int, st ≠ 400 → st ≠ 403 → st ≠ 422 → st ≠ 429 →
      ERRORSget st = .genericHTTP) ∧
    (∀ retry : Int, 1 ≤ retry →
      (request (fun _ => resp403) retry (some "json")).2 =
        .raised (.httpError .forbidden (some resp403)) ∧
      transportCount (request (fun _ => resp403) retry (some "json")).1
        = 1) := by
  refine ⟨?_, rfl, rfl, rfl, rfl, ?_, ?_⟩
  · intro resp attempt retry fmt rem ra h4 h5 h9 hrem hra
    unfold iterate
    rw [hrem, hra]
    dsimp only
    rw [if_neg (by omega : ¬(200 ≤ resp.status ∧ resp.status < 300))]
    rw [if_neg h9]
    rw [if_neg (by omega : ¬(500 ≤ resp.status))]
    have : (if rem = 0 ∧ resp.status ≠ 429 then ra else 0) =
        (if rem = 0 then ra else 0) := by
      by_cases h0 : rem = 0
      · rw [if_pos ⟨h0, h9⟩, if_pos h0]
      · rw [if_neg (by tauto), if_neg h0]
    rw [this]
  · intro st ha hb hc hd
    unfold ERRORSget
    rw [if_neg ha, if_neg hb, if_neg hc, if_neg hd]
  · intro retry hretry
    have hiter : iterate resp403 0 retry (some "json") =
        .done [0] (.raised (.httpError .forbidden (some resp403))) := by
      unfold iterate
      rw [show remainingOf resp403 = Except.ok 3 from rfl,
          show resetAfterOf resp403 = Except.ok 2 from rfl]
      dsimp only
      rw [show resp403.status = (403 : Int) from rfl]
      rw [if_neg (by decide : ¬((3 : Int) = 0 ∧ (403 : Int) ≠ 429))]
      rw [if_neg (by decide : ¬((200 : Int) ≤ 403 ∧ (403 : Int) < 300))]
      rw [if_neg (by decide : ¬((403 : Int) = 429))]
      rw [if_neg (by decide : ¬((500 : Int) ≤ 403))]
      rfl
    obtain ⟨m, hm⟩ : ∃ m, retry.toNat = m + 1 := ⟨retry.toNat - 1, by omega⟩
    have he : request (fun _ => resp403) retry (some "json") =
        ([.acquire, .transport resp403, .release 0],
          .raised (.httpError .forbidden (some resp403))) := by
      simp [request, hm, runAux, hiter]
    rw [he]
    exact ⟨rfl, rfl⟩

/-- Witness for C6: the general 4xx arm applied to the concrete 403
response on attempt 0 of a budget of 3, plus the table values and the
one-call Forbidden run. -/
theorem c6_terminal_4xx_mapping_witness :
    iterate resp403 0 3 (some "json") =
      .done [if (3 : Int) = 0 then 2 else 0]
        (.raised (.httpError (ERRORSget resp403.status) (some resp403))) ∧
    ERRORSget 404 = .genericHTTP ∧
    (request (fun _ => resp403) 3 (some "json")).2 =
      .raised (.httpError .forbidden (some resp403)) ∧
    transportCount (request (fun _ => resp403) 3 (some "json")).1 = 1 := by
  refine ⟨c6_terminal_4xx_mapping.1 resp403 0 3 (some "json") 3 2
      (by decide) (by decide) (by decide) rfl rfl, ?_, ?_, ?_⟩
  · exact c6_terminal_4xx_mapping.2.2.2.2.2.1 404 (by decide) (by decide)
      (by decide) (by decide)
  · exact (c6_terminal_4xx_mapping.2.2.2.2.2.2 3 (by decide)).1
  · exact (c6_terminal_4xx_mapping.2.2.2.2.2.2 3 (by decide)).2

/-- C7 amended: `remaining` defaults to 0 only when the
`ratelimit-remaining` header is absent — a present but unparsable value
raises ValueError instead; `reset_after` is read from `ratelimit-reset`
with `retry-after` as fallback, and when both are absent the `int(None)`
TypeError propagates out of `request` after the single transport call,
with no success, no retry and no gate release. -/
theorem c7_header_parsing_amended :
    (∀ resp : Resp, resp.ratelimitRemaining = none →
      remainingOf resp = .ok 0) ∧
    (∀ (resp : Resp) (v : String), resp.ratelimitRemaining = some v →
      pyInt? v = none → remainingOf resp = .error .valueError) ∧
    (∀ (resp : Resp) (v : String), resp.ratelimitReset = some v →
      resetAfterOf resp =
        (match pyInt? v with
          | some n => .ok n
          | none => .error .valueError)) ∧
    (∀ (resp : Resp) (v : String), resp.ratelimitReset = none →
      resp.retryAfter = some v →
      resetAfterOf resp =
        (match pyInt? v with
          | some n => .ok n
          | none => .error .valueError)) ∧
    (∀ resp : Resp, resp.ratelimitReset = none → resp.retryAfter = none →
      resetAfterOf resp = .error .typeError) ∧
    request (fun _ => respNoReset) 3 (some "json") =
      ([.acquire, .transport respNoReset], .raised .typeError) := by
  refine ⟨?_, ?_, ?_, ?_, ?_, rfl⟩
  · intro resp h
    unfold remainingOf
    rw [h]
  · intro resp v h hv
    unfold remainingOf
    rw [h]
    dsimp only
    rw [hv]
  · intro resp v h
    unfold resetAfterOf
    rw [show resp.ratelimitReset.orElse (fun _ => resp.retryAfter)
        = some v by rw [h]; rfl]
  · intro resp v h h2
    unfold resetAfterOf
    rw [show resp.ratelimitReset.orElse (fun _ => resp.retryAfter)
        = some v by rw [h, h2]; rfl]
  · intro resp h h2
    unfold resetAfterOf
    rw [show resp.ratelimitReset.orElse (fun _ => resp.retryAfter)
        = none by rw [h, h2]; rfl]

/-- Witness for the amended C7: header-absent default, unparsable
header, fallback to retry-after, and both-absent TypeError, each at a
concrete response. -/
theorem c7_header_parsing_witness :
    remainingOf resp500 = .ok 0 ∧
    remainingOf respBadRem = .error .valueError ∧
    resetAfterOf resp429 =
      (match pyInt? "10" with
        | some n => .ok n
        | none => .error .valueError) ∧
    resetAfterOf respNoReset = .error .typeError :=
  ⟨c7_header_parsing_amended.1 resp500 rfl,
   c7_header_parsing_amended.2.1 respBadRem "abc" rfl rfl,
   c7_header_parsing_amended.2.2.2.1 resp429 "10" rfl rfl,
   c7_header_parsing_amended.2.2.2.2.1 respNoReset rfl rfl⟩

/-- C1 amended: the per-iteration release count is not uniformly one.
A 2xx iteration and a terminal-error iteration release exactly once; a
429 iteration releases once when it is not the last attempt and twice
(the retry-after release plus the last-attempt `release(rl_sleep_for)`)
when it is; a server-error (≥ 500) iteration releases ZERO times when it
is not the last attempt and once when it is; and the post-loop code
always performs one more unconditional release before the final raise. -/
theorem c1_release_count_amended (resp : Resp) (attempt : Nat)
    (retry : Int) (fmt : Option String) (rem ra : Int)
    (hrem : remainingOf resp = .ok rem) (hra : resetAfterOf resp = .ok ra)
    (h429 : resp.status = 429 →
      ∃ v n, resp.retryAfter = some v ∧ pyInt? v = some n) :
    (iterReleases resp attempt retry fmt).length =
      (if 200 ≤ resp.status ∧ resp.status < 300 then 1
        else if resp.status = 429 then
          (if (attempt : Int) = retry - 1 then 2 else 1)
        else if 500 ≤ resp.status then
          (if (attempt : Int) = retry - 1 then 1 else 0)
        else 1) ∧
    (∀ ls lr, releasesOf (postLoop ls lr).1 = [0]) := by
  refine ⟨?_, fun ls lr => rfl⟩
  unfold iterReleases iterate
  rw [hrem, hra]
  dsimp only
  by_cases h2 : 200 ≤ resp.status ∧ resp.status < 300
  · rw [if_pos h2, if_pos h2]
    cases hfm : response_as resp fmt <;> rfl
  · rw [if_neg h2, if_neg h2]
    by_cases h9 : resp.status = 429
    · obtain ⟨v, n, hv, hn⟩ := h429 h9
      rw [if_pos h9, if_pos h9, hv]
      dsimp only
      rw [hn]
      dsimp only
      by_cases hl : (attempt : Int) = retry - 1
      · rw [if_pos hl, if_pos hl]
        rfl
      · rw [if_neg hl, if_neg hl]
        rfl
    · rw [if_neg h9, if_neg h9]
      by_cases h5 : 500 ≤ resp.status
      · rw [if_pos h5, if_pos h5]
        by_cases hl : (attempt : Int) = retry - 1
        · rw [if_pos hl, if_pos hl]
          rfl
        · rw [if_neg hl, if_neg hl]
          rfl
      · rw [if_neg h5, if_neg h5]
        rfl

/-- Witness for the amended C1: a non-final server-error iteration makes
zero releases, and the final iteration of a 429 run makes two. -/
theorem c1_release_count_witness :
    ((iterReleases resp500 0 3 (some "json")).length =
      (if 200 ≤ resp500.status ∧ resp500.status < 300 then 1
        else if resp500.status = 429 then
          (if ((0 : Nat) : Int) = 3 - 1 then 2 else 1)
        else if 500 ≤ resp500.status then
          (if ((0 : Nat) : Int) = 3 - 1 then 1 else 0)
        else 1) ∧
    (∀ ls lr, releasesOf (postLoop ls lr).1 = [0])) ∧
    ((iterReleases resp429 2 3 (some "json")).length =
      (if 200 ≤ resp429.status ∧ resp429.status < 300 then 1
        else if resp429.status = 429 then
          (if ((2 : Nat) : Int) = 3 - 1 then 2 else 1)
        else if 500 ≤ resp429.status then
          (if ((2 : Nat) : Int) = 3 - 1 then 1 else 0)
        else 1) ∧
    (∀ ls lr, releasesOf (postLoop ls lr).1 = [0])) :=
  ⟨c1_release_count_amended resp500 0 3 (some "json") 0 7 rfl rfl
      (fun h => absurd h (by decide)),
   c1_release_count_amended resp429 2 3 (some "json") 0 10 rfl rfl
      (fun _ => ⟨"10", 10, rfl, rfl⟩)⟩

/-- Release delays of a run whose every iteration falls through, when
only the final attempt releases its computed back-off: the trace's
releases are that final back-off followed by the bare post-loop
release. -/
theorem releasesOf_constNextEvents_backoff (resp : Resp) (retry : Int) :
    ∀ (fuel attempt : Nat), 1 ≤ fuel → (attempt : Int) + (fuel : Int) = retry →
      releasesOf (constNextEvents resp
        (fun a => if (a : Int) = retry - 1 then [1 + (a : Int) * 2] else [])
        fuel attempt) = [1 + (retry - 1) * 2, 0] := by
  intro fuel
  induction fuel with
  | zero => intro attempt h; exact absurd h (by omega)
  | succ n ih =>
    intro attempt h1 h2
    simp only [constNextEvents, releasesOf_cons_acquire,
      releasesOf_cons_transport, releasesOf_release_prefix]
    rcases Nat.eq_zero_or_pos n with hn | hn
    · subst hn
      have ha : (attempt : Int) = retry - 1 := by push_cast at h2; omega
      rw [if_pos ha, ha]
      rw [show releasesOf (constNextEvents resp
        (fun a => if (a : Int) = retry - 1 then [1 + (a : Int) * 2] else [])
        0 (attempt + 1)) = [0] from rfl]
      rfl
    · have ha : ¬ ((attempt : Int) = retry - 1) := by push_cast at h2; omega
      rw [if_neg ha]
      simp only [List.nil_append]
      exact ih (attempt + 1) (by omega) (by push_cast at h2 ⊢; omega)

/-- C4 amended: a run of `retry_attempts ≥ 1` consecutive 500 responses
raises `HypixelServerError` (carrying no response) after exactly
`retry_attempts` transport calls, but the back-off `1 + attempt * 2` is
handed to `release` only on the final attempt: the release delays of the
whole run are `[1 + (retry_attempts - 1) * 2, 0]`, not the increasing
sequence 1, 3, 5, …. -/
theorem c4_server_backoff_amended (retry : Int) (hr : 1 ≤ retry)
    (fmt : Option String) :
    (request (fun _ => resp500) retry fmt).2 =
      .raised (.httpError .hypixelServerError none) ∧
    transportCount (request (fun _ => resp500) retry fmt).1 = retry.toNat ∧
    releasesOf (request (fun _ => resp500) retry fmt).1 =
      [1 + (retry - 1) * 2, 0] := by
  have hit : ∀ a : Nat, iterate resp500 a retry fmt =
      .next (if (a : Int) = retry - 1 then [1 + (a : Int) * 2] else []) := by
    intro a
    unfold iterate
    rw [show remainingOf resp500 = Except.ok 0 from rfl,
        show resetAfterOf resp500 = Except.ok 7 from rfl]
    dsimp only
    rw [show resp500.status = (500 : Int) from rfl]
    rw [if_neg (by decide : ¬((200 : Int) ≤ 500 ∧ (500 : Int) < 300))]
    rw [if_neg (by decide : ¬((500 : Int) = 429))]
    rw [if_pos (by decide : (500 : Int) ≤ 500)]
    by_cases hl : (a : Int) = retry - 1
    · rw [if_pos hl, if_pos hl]
    · rw [if_neg hl, if_neg hl]
  have hnz : ¬ (retry.toNat = 0) := by omega
  have hrun := runAux_const_next resp500 retry fmt _ hit retry.toNat 0 none none
  rw [if_neg hnz, if_neg hnz] at hrun
  have hreq : request (fun _ => resp500) retry fmt =
      (constNextEvents resp500
        (fun a => if (a : Int) = retry - 1 then [1 + (a : Int) * 2] else [])
        retry.toNat 0,
       (postLoop (some resp500.status) (some resp500)).2) := hrun
  refine ⟨?_, ?_, ?_⟩
  · rw [hreq]
    rfl
  · rw [hreq]
    exact transportCount_constNextEvents resp500 _ retry.toNat 0
  · rw [hreq]
    exact releasesOf_constNextEvents_backoff resp500 retry retry.toNat 0
      (by omega) (by omega)

/-- Witness for the amended C4 at the default budget of three attempts. -/
theorem c4_server_backoff_witness :
    (request (fun _ => resp500) 3 (some "json")).2 =
      .raised (.httpError .hypixelServerError none) ∧
    transportCount (request (fun _ => resp500) 3 (some "json")).1 =
      (3 : Int).toNat ∧
    releasesOf (request (fun _ => resp500) 3 (some "json")).1 =
      [1 + (3 - 1) * 2, 0] :=
  c4_server_backoff_amended 3 (by decide) (some "json")

/-- C8: a 429 on a non-final attempt does not raise — the iteration
releases the gate with the server's retry-after value (10 here, while
`rl_sleep_for` stayed 0) and the loop proceeds: the replayed second
acquire resumes only at time 10, the gate being closed to every earlier
instant, and the retried request then succeeds; and when every attempt
of a budget of `retry ≥ 1` observes 429, the request ends by raising
`TooManyRequests` carrying the response, after `retry` transport
calls. -/
theorem c8_rate_limited_retry (retry : Int) (hr : 1 ≤ retry) :
    request (fun n => if n = 0 then resp429 else respOK5 200) 3
        (some "json") =
      ([.acquire, .transport resp429, .release 10, .acquire,
        .transport (respOK5 200), .release 0], .returned (.json "J")) ∧
    replay [.acquire, .transport resp429, .release 10, .acquire] =
      some (10, ⟨some 0, [10]⟩) ∧
    (∀ u : Int, (⟨some 0, [10]⟩ : RateLimiter).openAt u = true ↔ 10 ≤ u) ∧
    (request (fun _ => resp429) retry (some "json")).2 =
      .raised (.httpError .tooManyRequests (some resp429)) ∧
    transportCount (request (fun _ => resp429) retry (some "json")).1 =
      retry.toNat := by
  have hit : ∀ a : Nat, iterate resp429 a retry (some "json") =
      .next (if (a : Int) = retry - 1 then [10, 0] else [10]) := by
    intro a
    unfold iterate
    rw [show remainingOf resp429 = Except.ok 0 from rfl,
        show resetAfterOf resp429 = Except.ok 10 from rfl]
    dsimp only
    rw [show resp429.status = (429 : Int) from rfl]
    rw [if_neg (by decide : ¬((0 : Int) = 0 ∧ (429 : Int) ≠ 429))]
    rw [if_neg (by decide : ¬((200 : Int) ≤ 429 ∧ (429 : Int) < 300))]
    rw [if_pos (rfl : (429 : Int) = 429)]
    rw [show resp429.retryAfter = some "10" from rfl]
    dsimp only
    rw [show pyInt? "10" = some 10 from rfl]
    dsimp only
    by_cases hl : (a : Int) = retry - 1
    · rw [if_pos hl, if_pos hl]
    · rw [if_neg hl, if_neg hl]
  have hnz : ¬ (retry.toNat = 0) := by omega
  have hrun := runAux_const_next resp429 retry (some "json") _ hit
    retry.toNat 0 none none
  rw [if_neg hnz, if_neg hnz] at hrun
  have hreq : request (fun _ => resp429) retry (some "json") =
      (constNextEvents resp429
        (fun a => if (a : Int) = retry - 1 then [10, 0] else [10])
        retry.toNat 0,
       (postLoop (some resp429.status) (some resp429)).2) := hrun
  refine ⟨rfl, rfl, ?_, ?_, ?_⟩
  · intro u
    simp [RateLimiter.openAt]
  · rw [hreq]
    rfl
  · rw [hreq]
    exact transportCount_constNextEvents resp429 _ retry.toNat 0

/-- Witness for C8 at the default budget of three attempts. -/
theorem c8_rate_limited_retry_witness :
    request (fun n => if n = 0 then resp429 else respOK5 200) 3
        (some "json") =
      ([.acquire, .transport resp429, .release 10, .acquire,
        .transport (respOK5 200), .release 0], .returned (.json "J")) ∧
    replay [.acquire, .transport resp429, .release 10, .acquire] =
      some (10, ⟨some 0, [10]⟩) ∧
    (∀ u : Int, (⟨some 0, [10]⟩ : RateLimiter).openAt u = true ↔ 10 ≤ u) ∧
    (request (fun _ => resp429) 3 (some "json")).2 =
      .raised (.httpError .tooManyRequests (some resp429)) ∧
    transportCount (request (fun _ => resp429) 3 (some "json")).1 =
      (3 : Int).toNat :=
  c8_rate_limited_retry 3 (by decide)

/-- Error payload of a failed `remainingOf` is always ValueError. -/
theorem remainingOf_error (resp : Resp) (e : PyErr)
    (h : remainingOf resp = .error e) : e = .valueError := by
  unfold remainingOf at h
  cases hx : resp.ratelimitRemaining with
  | none => rw [hx] at h; simp at h
  | some v =>
    rw [hx] at h
    dsimp only at h
    cases hy : pyInt? v with
    | none => rw [hy] at h; simp at h; exact h.symm
    | some n => rw [hy] at h; simp at h

/-- Error payload of a failed `resetAfterOf` is TypeError or ValueError. -/
theorem resetAfterOf_error (resp : Resp) (e : PyErr)
    (h : resetAfterOf resp = .error e) :
    e = .typeError ∨ e = .valueError := by
  unfold resetAfterOf at h
  cases hx : resp.ratelimitReset.orElse (fun _ => resp.retryAfter) with
  | none => rw [hx] at h; simp at h; exact Or.inl h.symm
  | some v =>
    rw [hx] at h
    dsimp only at h
    cases hy : pyInt? v with
    | none => rw [hy] at h; simp at h; exact Or.inr h.symm
    | some n => rw [hy] at h; simp at h

/-- The only typed library error an iteration of the retry loop can
raise is the table lookup applied to the current response: its kind is
never `hypixelServerError` and it always carries the response. -/
theorem iterate_done_raised_httpError (resp : Resp) (a : Nat)
    (retry : Int) (fmt : Option String) (rels : List Int) (k : ErrKind)
    (ro : Option Resp)
    (h : iterate resp a retry fmt = .done rels (.raised (.httpError k ro))) :
    k ≠ .hypixelServerError ∧ ro = some resp := by
  unfold iterate at h
  cases hrem : remainingOf resp with
  | error e =>
    have he := remainingOf_error resp e hrem
    subst he
    rw [hrem] at h
    simp at h
  | ok rem =>
    rw [hrem] at h
    dsimp only at h
    cases hra : resetAfterOf resp with
    | error e =>
      have he := resetAfterOf_error resp e hra
      rw [hra] at h
      dsimp only at h
      rcases he with he | he <;> subst he <;> simp at h
    | ok ra =>
      rw [hra] at h
      dsimp only at h
      by_cases h2 : 200 ≤ resp.status ∧ resp.status < 300
      · rw [if_pos h2] at h
        cases hfm : response_as resp fmt with
        | ok v => rw [hfm] at h; simp at h
        | error e =>
          rw [hfm] at h
          simp at h
          obtain ⟨-, he⟩ := h
          exact absurd (by rw [hfm, he])
            (response_as_no_httpError resp fmt k ro)
      · rw [if_neg h2] at h
        by_cases h9 : resp.status = 429
        · rw [if_pos h9] at h
          cases hre : resp.retryAfter with
          | none => rw [hre] at h; simp at h
          | some v =>
            rw [hre] at h
            dsimp only at h
            cases hpi : pyInt? v with
            | none => rw [hpi] at h; simp at h
            | some n =>
              rw [hpi] at h
              dsimp only at h
              by_cases hl : (a : Int) = retry - 1 <;>
                [rw [if_pos hl] at h; rw [if_neg hl] at h] <;> simp at h
        · rw [if_neg h9] at h
          by_cases h5 : 500 ≤ resp.status
          · rw [if_pos h5] at h
            by_cases hl : (a : Int) = retry - 1 <;>
              [rw [if_pos hl] at h; rw [if_neg hl] at h] <;> simp at h
          · rw [if_neg h5] at h
            simp at h
            obtain ⟨-, hk, hro⟩ := h
            subst hk
            exact ⟨ERRORSget_ne_server resp.status, hro.symm⟩

/-- Outcome invariant of the retry loop: whenever it ends in a typed
library error, either the error is the exhausted-budget
`HypixelServerError` carrying no response, or it is another kind
carrying some response. -/
theorem runAux_httpError_resp (net : Nat → Resp) (retry : Int)
    (fmt : Option String) :
    ∀ (fuel attempt : Nat) (ls : Option Int) (lr : Option Resp),
      (∀ s : Int, ls = some s → ∃ rp, lr = some rp) →
      ∀ (k : ErrKind) (ro : Option Resp),
        (runAux net retry fmt fuel attempt ls lr).2 =
          .raised (.httpError k ro) →
        (k = .hypixelServerError ∧ ro = none) ∨
        (k ≠ .hypixelServerError ∧ ∃ rp, ro = some rp) := by
  intro fuel
  induction fuel with
  | zero =>
    intro attempt ls lr hlr k ro h
    simp only [runAux, postLoop] at h
    cases hls : ls with
    | none => rw [hls] at h; simp at h
    | some s =>
      rw [hls] at h
      dsimp only at h
      by_cases h5 : 500 ≤ s
      · rw [if_pos h5] at h
        simp at h
        exact Or.inl ⟨h.1.symm, h.2.symm⟩
      · rw [if_neg h5] at h
        simp at h
        obtain ⟨rp, hrp⟩ := hlr s hls
        obtain ⟨hk, hro⟩ := h
        subst hk
        refine Or.inr ⟨ERRORSget_ne_server s, rp, ?_⟩
        rw [← hro, hrp]
  | succ n ih =>
    intro attempt ls lr hlr k ro h
    simp only [runAux] at h
    cases hi : iterate (net attempt) attempt retry fmt with
    | done rels out =>
      rw [hi] at h
      dsimp only at h
      subst h
      exact Or.inr (And.intro
        (iterate_done_raised_httpError (net attempt) attempt retry fmt
          rels k ro hi).1
        ⟨net attempt,
          (iterate_done_raised_httpError (net attempt) attempt retry fmt
            rels k ro hi).2⟩)
    | next rels =>
      rw [hi] at h
      dsimp only at h
      exact ih (attempt + 1) (some (net attempt).status)
        (some (net attempt)) (fun _ _ => ⟨net attempt, rfl⟩) k ro h

/-- C9 amended: every typed error raised by `request` carries the
original response, EXCEPT the `HypixelServerError` raised when the
attempt budget is exhausted on server errors, which is constructed
without any argument and carries none — and that is the only way a
`hypixelServerError`-kind error can arise. -/
theorem c9_error_carries_response_amended (net : Nat → Resp)
    (retry : Int) (fmt : Option String) (k : ErrKind) (ro : Option Resp)
    (h : (request net retry fmt).2 = .raised (.httpError k ro)) :
    (k = .hypixelServerError ∧ ro = none) ∨
    (k ≠ .hypixelServerError ∧ ∃ rp, ro = some rp) :=
  runAux_httpError_resp net retry fmt retry.toNat 0 none none
    (fun _ hs => Option.noConfusion hs) k ro h

/-- Witness for the amended C9 at a one-call Forbidden run. -/
theorem c9_error_carries_response_witness :
    (ErrKind.forbidden = ErrKind.hypixelServerError ∧
      (some resp403 : Option Resp) = none) ∨
    (ErrKind.forbidden ≠ ErrKind.hypixelServerError ∧
      ∃ rp, (some resp403 : Option Resp) = some rp) :=
  c9_error_carries_response_amended (fun _ => resp403) 3 (some "json")
    .forbidden (some resp403) rfl
